import Mathlib

/-!
Shallow embedding of the ChatAi message-stream reconciliation core
(src/App.tsx) and verification of its specification claims.

The embedding models the React state of the App component
(`messages`, `isLoading`, `error`, `chatSession`, `activeAiMessageId`)
as an explicit record, and the `handleSendMessage` callback
(src/App.tsx lines 186-252) as a state-transition function.  External
nondeterminism is made explicit:

* every call to the JavaScript clock (`Date.now()` / `new Date()`)
  inside one send is a separate reading, supplied as input;
* the backend stream (`chatSession.sendMessageStream`) is an input
  value: either it yields a finite list of chunk texts and completes,
  or the open call itself throws, or it throws after yielding some
  chunks.  A chunk's `text` field is modelled as a `String`, with the
  empty string standing for both `""` and `undefined` (JavaScript
  truthiness of `chunk.text` at line 223 treats them alike).
-/

/-- Role of a chat message.  Declared in types.ts (not part of src/);
the two constructors are exactly the members referenced from
src/App.tsx: `MessageRole.USER` and `MessageRole.AI` (the spec calls
the latter ASSISTANT). -/
inductive MessageRole where
  | USER : MessageRole
  | AI : MessageRole
deriving DecidableEq, Repr

/-- One chat message, as constructed in src/App.tsx (the interface
itself lives in types.ts, outside src/; the fields are the ones every
literal in App.tsx supplies: `id`, `role`, `text`, `timestamp`).
Identifiers and timestamps are `Date.now()` millisecond readings,
modelled as `Nat`. -/
structure ChatMessageData where
  id : Nat
  role : MessageRole
  text : String
  timestamp : Nat
deriving DecidableEq, Repr

/-- The React state of the App component that the reconciliation core
reads and writes (src/App.tsx lines 50-62).  `chatSession` is `true`
when a session handle exists (`chatSession !== null`). -/
structure AppState where
  messages : List ChatMessageData
  isLoading : Bool
  error : Option String
  chatSession : Bool
  activeAiMessageId : Option Nat
deriving DecidableEq, Repr

/-- Clock readings consumed by one `handleSendMessage` call, in source
order: `Date.now()` for the user message id (line 196), `new Date()`
for its timestamp (line 199), `Date.now()` for the AI message id base
(line 203), `new Date()` for the AI placeholder timestamp (line 210). -/
structure ClockReads where
  tUserId : Nat
  tUserTs : Nat
  tAiId : Nat
  tAiTs : Nat
deriving DecidableEq, Repr

/-- The JavaScript clock is nondecreasing across the four readings of
one send. -/
def ClockReads.Monotone (c : ClockReads) : Prop :=
  c.tUserId ≤ c.tUserTs ∧ c.tUserTs ≤ c.tAiId ∧ c.tAiId ≤ c.tAiTs

/-- Outcome of the backend streaming exchange of one accepted send:
the stream opens and yields `chunks` then completes normally; or the
`sendMessageStream` call itself throws (before `setError(null)` at
line 219 runs); or the async iteration throws after yielding `chunks`.
The error payload is the thrown value's `message` property, `none`
when absent. -/
inductive StreamOutcome where
  | ok (chunks : List String) : StreamOutcome
  | openFail (emsg : Option String) : StreamOutcome
  | midFail (chunks : List String) (emsg : Option String) : StreamOutcome
deriving DecidableEq, Repr

/-- The welcome text seeded at init and by `handleNewChat`
(src/App.tsx lines 133 and 284). -/
def welcomeText : String := "Hello, I am ChatAi\nHow can I help you?"

/-- App state after a successful initialization effect (src/App.tsx
lines 115-153, success path): one welcome record, loading finished,
no error, a live chat session, no active stream target.  `tId` and
`tTs` are the two clock readings at lines 131-134. -/
def initSuccessState (tId tTs : Nat) : AppState :=
  { messages := [{ id := tId, role := .AI, text := welcomeText, timestamp := tTs }]
    isLoading := false
    error := none
    chatSession := true
    activeAiMessageId := none }

/-- Model of JavaScript `String.prototype.trim`: drop leading and
trailing whitespace characters. -/
def jsTrim (s : String) : String :=
  ⟨(((s.data.dropWhile Char.isWhitespace).reverse).dropWhile Char.isWhitespace).reverse⟩

/-- Guard of `handleSendMessage` (src/App.tsx line 188):
`if (!prompt.trim() || isLoading || !chatSession) return;`.
The send is accepted exactly when this is `true`. -/
def sendAccepted (s : AppState) (prompt : String) : Bool :=
  !(jsTrim prompt == "" || s.isLoading || !s.chatSession)

/-- The user message object (src/App.tsx lines 195-200): raw prompt
text, id and timestamp from the first two clock readings. -/
def mkUserMessage (prompt : String) (c : ClockReads) : ChatMessageData :=
  { id := c.tUserId, role := .USER, text := prompt, timestamp := c.tUserTs }

/-- The AI placeholder id (src/App.tsx line 203):
`const newAiMessageId = Date.now() + 1;`. -/
def newAiMessageId (c : ClockReads) : Nat :=
  c.tAiId + 1

/-- The empty AI placeholder appended alongside the user message
(src/App.tsx line 210). -/
def mkAiPlaceholder (c : ClockReads) : ChatMessageData :=
  { id := newAiMessageId c, role := .AI, text := "", timestamp := c.tAiTs }

/-- State right after an accepted send's synchronous prefix
(src/App.tsx lines 190-211): `setIsLoading(true)`,
`setActiveAiMessageId(newAiMessageId)`, and the single `setMessages`
appending the user message and the AI placeholder, in that order, at
the tail.  This is the transcript before any fragment is processed. -/
def sendStart (s : AppState) (prompt : String) (c : ClockReads) : AppState :=
  { s with
      isLoading := true
      activeAiMessageId := some (newAiMessageId c)
      messages := s.messages ++ [mkUserMessage prompt c, mkAiPlaceholder c] }

/-- The Transcript Store text-replacement primitive: the updater
passed to `setMessages` during streaming (src/App.tsx lines 228-232),
`prevMessages.map(msg => msg.id === id ? { ...msg, text: newText } : msg)`.
A record whose id does not match is returned unchanged; if no record
matches, the list is unchanged. -/
def replaceText (targetId : Nat) (newText : String) (msgs : List ChatMessageData) :
    List ChatMessageData :=
  msgs.map (fun msg => if msg.id == targetId then { msg with text := newText } else msg)

/-- The error-path updater (src/App.tsx lines 242-246): like
`replaceText` but also (re)asserting `role: MessageRole.AI`. -/
def replaceTextAndRole (targetId : Nat) (newText : String) (msgs : List ChatMessageData) :
    List ChatMessageData :=
  msgs.map (fun msg =>
    if msg.id == targetId then { msg with text := newText, role := MessageRole.AI } else msg)

/-- One iteration of the streaming loop body (src/App.tsx lines
222-234) on the pair (accumulatedResponseText, messages): when
`chunk.text` is truthy (non-empty), append it to the accumulator and
replace the matching record's text with the accumulator; otherwise do
nothing. -/
def chunkStep (aiId : Nat) (st : String × List ChatMessageData) (chunkText : String) :
    String × List ChatMessageData :=
  if chunkText = "" then st
  else
    let acc := st.1 ++ chunkText
    (acc, replaceText aiId acc st.2)

/-- The whole streaming loop (src/App.tsx lines 222-234): fold the
arrived chunks, in arrival order, starting from the empty accumulator
seeded at line 214. -/
def processChunks (aiId : Nat) (msgs : List ChatMessageData) (chunks : List String) :
    String × List ChatMessageData :=
  chunks.foldl (chunkStep aiId) ("", msgs)

/-- The user-facing error string built in the catch block
(src/App.tsx line 238), with JavaScript `||` fallback when `e.message`
is absent or empty. -/
def errorMessageText (emsg : Option String) : String :=
  "Sorry, I encountered an error: " ++
    (match emsg with
      | some m => if m = "" then "Unknown API error" else m
      | none => "Unknown API error")

/-- Effect of `setError(null)` at src/App.tsx line 219, run right
after the stream opens and before the first fragment is processed. -/
def afterStreamOpen (s : AppState) : AppState :=
  { s with error := none }

/-- The try/catch body of an accepted send (src/App.tsx lines
216-246), given the stream's outcome.  On a successful open the error
banner is cleared, then the chunks are folded; if the stream throws
(at open or mid-iteration) the catch block sets the error state and
overwrites the placeholder's text with the error string. -/
def streamBody (s : AppState) (c : ClockReads) (o : StreamOutcome) : AppState :=
  match o with
  | .ok chunks =>
      let s1 := afterStreamOpen s
      { s1 with messages := (processChunks (newAiMessageId c) s1.messages chunks).2 }
  | .openFail emsg =>
      let errText := errorMessageText emsg
      { s with
          error := some errText
          messages := replaceTextAndRole (newAiMessageId c) errText s.messages }
  | .midFail chunks emsg =>
      let s1 := afterStreamOpen s
      let msgs1 := (processChunks (newAiMessageId c) s1.messages chunks).2
      let errText := errorMessageText emsg
      { s1 with
          error := some errText
          messages := replaceTextAndRole (newAiMessageId c) errText msgs1 }

/-- The finally block (src/App.tsx lines 247-251): `setIsLoading(false)`
and `setActiveAiMessageId(null)`, run on every exit path of the
exchange. -/
def sendFinish (s : AppState) : AppState :=
  { s with isLoading := false, activeAiMessageId := none }

/-- The whole `handleSendMessage` callback (src/App.tsx lines
186-252) as a state transformer: a rejected call is the identity; an
accepted call runs the synchronous prefix, the try/catch body for the
given stream outcome, and the finally block. -/
def handleSendMessage (s : AppState) (prompt : String) (c : ClockReads)
    (o : StreamOutcome) : AppState :=
  if sendAccepted s prompt then sendFinish (streamBody (sendStart s prompt c) c o)
  else s

/-- The `message` field of the request passed to
`chatSession.sendMessageStream` (src/App.tsx line 218), or `none` when
the guard rejected the call and no request is issued. -/
def streamOpenMessage (s : AppState) (prompt : String) : Option String :=
  if sendAccepted s prompt then some prompt else none

/-- The argument `ChatInput` passes to `onSendMessage`
(src/components/ChatInput.tsx lines 65-70): `message.trim()` when the
local guard `message.trim() && !isLoading` passes, `none` when no call
is made. -/
def chatInputSend (message : String) (isLoading : Bool) : Option String :=
  if jsTrim message ≠ "" ∧ !isLoading then some (jsTrim message) else none

/-- The `handleNewChat` handler (src/App.tsx lines 278-288): replaces
the whole transcript with a single fresh welcome record; `tId` and
`tTs` are the two clock readings at lines 282-285.  No other state
field is touched. -/
def handleNewChat (s : AppState) (tId tTs : Nat) : AppState :=
  { s with
      messages := [{ id := tId, role := .AI, text := welcomeText, timestamp := tTs }] }

/-- Concatenation, in order, of the non-empty fragments of a list -
the value `accumulatedResponseText` holds after the loop has consumed
the list. -/
def concatNonEmpty : List String → String
  | [] => ""
  | f :: fs => (if f = "" then "" else f) ++ concatNonEmpty fs

/-- The final text of the assistant placeholder for each stream
outcome: the accumulated non-empty chunks on normal completion, the
error string on either failure. -/
def finalAssistantText : StreamOutcome → String
  | .ok chunks => concatNonEmpty chunks
  | .openFail emsg => errorMessageText emsg
  | .midFail _ emsg => errorMessageText emsg

/-! ### Helper lemmas about the Transcript primitives -/

/-- A text replacement targeting an id that no record carries leaves
every record, and hence the whole list, unchanged. -/
lemma replaceText_frame (targetId : Nat) (txt : String) :
    ∀ msgs : List ChatMessageData, (∀ m ∈ msgs, m.id ≠ targetId) →
      replaceText targetId txt msgs = msgs
  | [], _ => rfl
  | a :: l, h => by
    have ha : (a.id == targetId) = false := by
      simpa using h a (by simp)
    have hl := replaceText_frame targetId txt l (fun m hm => h m (by simp [hm]))
    simp only [replaceText, List.map_cons, ha, Bool.false_eq_true, if_false] at hl ⊢
    rw [hl]

/-- Analogue of `replaceText_frame` for the error-path updater. -/
lemma replaceTextAndRole_frame (targetId : Nat) (txt : String) :
    ∀ msgs : List ChatMessageData, (∀ m ∈ msgs, m.id ≠ targetId) →
      replaceTextAndRole targetId txt msgs = msgs
  | [], _ => rfl
  | a :: l, h => by
    have ha : (a.id == targetId) = false := by
      simpa using h a (by simp)
    have hl := replaceTextAndRole_frame targetId txt l (fun m hm => h m (by simp [hm]))
    simp only [replaceTextAndRole, List.map_cons, ha, Bool.false_eq_true, if_false] at hl ⊢
    rw [hl]

/-- Both updaters distribute over list concatenation. -/
lemma replaceText_append (targetId : Nat) (txt : String)
    (l1 l2 : List ChatMessageData) :
    replaceText targetId txt (l1 ++ l2) =
      replaceText targetId txt l1 ++ replaceText targetId txt l2 := by
  simp [replaceText]

lemma replaceTextAndRole_append (targetId : Nat) (txt : String)
    (l1 l2 : List ChatMessageData) :
    replaceTextAndRole targetId txt (l1 ++ l2) =
      replaceTextAndRole targetId txt l1 ++ replaceTextAndRole targetId txt l2 := by
  simp [replaceTextAndRole]

/-- Replacing the text of a singleton whose id matches. -/
lemma replaceText_singleton_hit (targetId : Nat) (txt : String)
    (m : ChatMessageData) (h : m.id = targetId) :
    replaceText targetId txt [m] = [{ m with text := txt }] := by
  simp [replaceText, h]

/-- Replacing text and role of a singleton whose id matches. -/
lemma replaceTextAndRole_singleton_hit (targetId : Nat) (txt : String)
    (m : ChatMessageData) (h : m.id = targetId) :
    replaceTextAndRole targetId txt [m] =
      [{ m with text := txt, role := MessageRole.AI }] := by
  simp [replaceTextAndRole, h]

/-- Concatenation of non-empty fragments distributes over append. -/
lemma concatNonEmpty_append :
    ∀ l1 l2 : List String,
      concatNonEmpty (l1 ++ l2) = concatNonEmpty l1 ++ concatNonEmpty l2
  | [], l2 => by simp [concatNonEmpty, String.empty_append]
  | f :: fs, l2 => by
    simp only [List.cons_append, concatNonEmpty, List.append_eq,
      concatNonEmpty_append fs l2, String.append_assoc]

/-- An empty fragment is a no-op of the loop body. -/
lemma chunkStep_empty (aiId : Nat) (st : String × List ChatMessageData) :
    chunkStep aiId st "" = st := by
  simp [chunkStep]

/-- Streaming-loop invariant, collision-tolerant form: whatever the
rest of the list looks like, if its last record is the placeholder
holding the accumulator's text, then after any further chunks the last
record holds the accumulator extended by exactly the non-empty chunks,
in order. -/
lemma foldl_chunkStep_getLast (aiId : Nat) (base : ChatMessageData)
    (hbase : base.id = aiId) :
    ∀ (chunks : List String) (acc : String) (msgs : List ChatMessageData),
      msgs.getLast? = some { base with text := acc } →
      (List.foldl (chunkStep aiId) (acc, msgs) chunks).1 = acc ++ concatNonEmpty chunks ∧
      (List.foldl (chunkStep aiId) (acc, msgs) chunks).2.getLast? =
        some { base with text := acc ++ concatNonEmpty chunks }
  | [], acc, msgs, h => by
    refine ⟨by simp [concatNonEmpty, String.append_empty], ?_⟩
    simpa [concatNonEmpty, String.append_empty] using h
  | ch :: chunks, acc, msgs, h => by
    by_cases hch : ch = ""
    · subst hch
      rw [List.foldl_cons, chunkStep_empty]
      have hrec := foldl_chunkStep_getLast aiId base hbase chunks acc msgs h
      simpa [concatNonEmpty, String.empty_append] using hrec
    · rw [List.foldl_cons]
      have hstep : chunkStep aiId (acc, msgs) ch =
          (acc ++ ch, replaceText aiId (acc ++ ch) msgs) := by
        simp [chunkStep, hch]
      rw [hstep]
      have hlast : (replaceText aiId (acc ++ ch) msgs).getLast? =
          some { base with text := acc ++ ch } := by
        unfold replaceText
        rw [List.getLast?_map, h]
        simp [hbase]
      have hrec := foldl_chunkStep_getLast aiId base hbase chunks (acc ++ ch)
        (replaceText aiId (acc ++ ch) msgs) hlast
      simpa [concatNonEmpty, hch, String.append_assoc] using hrec

/-- Streaming-loop characterization under a fresh placeholder id: no
record of `front` carries the target id, so the fold leaves `front`
untouched and rewrites only the trailing placeholder. -/
lemma foldl_chunkStep_fresh (aiId : Nat) (front : List ChatMessageData)
    (base : ChatMessageData) (hfront : ∀ m ∈ front, m.id ≠ aiId)
    (hbase : base.id = aiId) :
    ∀ (chunks : List String) (acc : String),
      List.foldl (chunkStep aiId) (acc, front ++ [{ base with text := acc }]) chunks =
        (acc ++ concatNonEmpty chunks,
          front ++ [{ base with text := acc ++ concatNonEmpty chunks }])
  | [], acc => by simp [concatNonEmpty, String.append_empty]
  | ch :: chunks, acc => by
    by_cases hch : ch = ""
    · subst hch
      rw [List.foldl_cons, chunkStep_empty,
        foldl_chunkStep_fresh aiId front base hfront hbase chunks acc]
      simp [concatNonEmpty, String.empty_append]
    · rw [List.foldl_cons]
      have hstep : chunkStep aiId (acc, front ++ [{ base with text := acc }]) ch =
          (acc ++ ch, front ++ [{ base with text := acc ++ ch }]) := by
        simp only [chunkStep, hch, if_false]
        rw [replaceText_append, replaceText_frame aiId _ front hfront,
          replaceText_singleton_hit aiId (acc ++ ch) { base with text := acc } hbase]
      rw [hstep, foldl_chunkStep_fresh aiId front base hfront hbase chunks (acc ++ ch)]
      simp [concatNonEmpty, hch, String.append_assoc]

/-- Master characterization of an accepted send whose placeholder id
is fresh (no prior record carries it) under a nondecreasing clock: on
every outcome the prior transcript and the user record pass through
untouched and the placeholder ends with the outcome's final text. -/
lemma handleSendMessage_messages_of_fresh (s : AppState) (p : String)
    (c : ClockReads) (o : StreamOutcome)
    (hacc : sendAccepted s p = true)
    (hfresh : ∀ m ∈ s.messages, m.id ≠ newAiMessageId c)
    (hclk : c.tUserId ≤ c.tAiId) :
    (handleSendMessage s p c o).messages =
      s.messages ++ [mkUserMessage p c,
        { mkAiPlaceholder c with text := finalAssistantText o }] := by
  have huser : (mkUserMessage p c).id ≠ newAiMessageId c := by
    simp only [mkUserMessage, newAiMessageId]
    omega
  have hfront : ∀ m ∈ s.messages ++ [mkUserMessage p c], m.id ≠ newAiMessageId c := by
    intro m hm
    rcases List.mem_append.mp hm with h | h
    · exact hfresh m h
    · rcases List.mem_singleton.mp h with rfl
      exact huser
  have h0 : (sendStart s p c).messages =
      (s.messages ++ [mkUserMessage p c]) ++ [{ mkAiPlaceholder c with text := "" }] := by
    show s.messages ++ [mkUserMessage p c, mkAiPlaceholder c] = _
    rw [List.append_assoc]
    rfl
  have key : ∀ chunks : List String,
      (processChunks (newAiMessageId c) (sendStart s p c).messages chunks).2 =
        (s.messages ++ [mkUserMessage p c]) ++
          [{ mkAiPlaceholder c with text := concatNonEmpty chunks }] := by
    intro chunks
    rw [processChunks, h0,
      foldl_chunkStep_fresh (newAiMessageId c) (s.messages ++ [mkUserMessage p c])
        (mkAiPlaceholder c) hfront rfl chunks ""]
    simp [String.empty_append]
  unfold handleSendMessage
  rw [if_pos hacc]
  cases o with
  | ok chunks =>
    simp only [streamBody, sendFinish, afterStreamOpen]
    rw [key chunks, List.append_assoc]
    rfl
  | openFail emsg =>
    simp only [streamBody, sendFinish]
    rw [h0, replaceTextAndRole_append,
      replaceTextAndRole_frame (newAiMessageId c) _ _ hfront,
      replaceTextAndRole_singleton_hit (newAiMessageId c) (errorMessageText emsg)
        { mkAiPlaceholder c with text := "" } rfl,
      List.append_assoc]
    rfl
  | midFail chunks emsg =>
    simp only [streamBody, sendFinish, afterStreamOpen]
    rw [key chunks, replaceTextAndRole_append,
      replaceTextAndRole_frame (newAiMessageId c) _ _ hfront,
      replaceTextAndRole_singleton_hit (newAiMessageId c) (errorMessageText emsg)
        { mkAiPlaceholder c with text := concatNonEmpty chunks } rfl,
      List.append_assoc]
    rfl

/-! ### Claim theorems -/

/-- Claim C1: a `send` issued while busy, with a prompt empty after
trimming, or with no active session handle is a silent no-op — the
entire state (transcript, busy flag, error, active record id) is
returned unchanged, and no exception is possible since the model is a
total function; moreover a send is accepted exactly when all three
preconditions hold. -/
theorem send_rejection_is_silent_noop (s : AppState) (prompt : String)
    (c : ClockReads) (o : StreamOutcome) :
    (sendAccepted s prompt = false → handleSendMessage s prompt c o = s)
    ∧ (sendAccepted s prompt = true ↔
        (jsTrim prompt ≠ "" ∧ s.isLoading = false ∧ s.chatSession = true)) := by
  constructor
  · intro h
    simp [handleSendMessage, h]
  · unfold sendAccepted
    cases hload : s.isLoading <;> cases hsess : s.chatSession <;>
      simp [beq_iff_eq]

/-- Witness for C1: a concrete send rejected because the app is busy
leaves the concrete state untouched. -/
theorem send_rejection_is_silent_noop_witness :
    handleSendMessage { initSuccessState 0 0 with isLoading := true } "hi"
        ⟨1, 1, 1, 1⟩ (StreamOutcome.ok ["x"])
      = { initSuccessState 0 0 with isLoading := true } :=
  (send_rejection_is_silent_noop { initSuccessState 0 0 with isLoading := true }
    "hi" ⟨1, 1, 1, 1⟩ (StreamOutcome.ok ["x"])).1 (by decide)

/-- Claim C3: every accepted send appends exactly two records at the
tail before any fragment is processed: first the USER record carrying
the prompt text, then the ASSISTANT placeholder carrying the empty
string, so the transcript grows by exactly 2. -/
theorem accepted_send_appends_two_records (s : AppState) (prompt : String)
    (c : ClockReads) (hacc : sendAccepted s prompt = true) :
    (sendStart s prompt c).messages
        = s.messages ++ [mkUserMessage prompt c, mkAiPlaceholder c]
    ∧ (sendStart s prompt c).messages.length = s.messages.length + 2
    ∧ (mkUserMessage prompt c).role = MessageRole.USER
    ∧ (mkUserMessage prompt c).text = prompt
    ∧ (mkAiPlaceholder c).role = MessageRole.AI
    ∧ (mkAiPlaceholder c).text = "" := by
  refine ⟨rfl, ?_, rfl, rfl, rfl, rfl⟩
  simp [sendStart]

/-- Witness for C3 at a concrete ready state and prompt. -/
theorem accepted_send_appends_two_records_witness :
    (sendStart (initSuccessState 0 0) "hi" ⟨5, 5, 6, 6⟩).messages
        = (initSuccessState 0 0).messages
            ++ [mkUserMessage "hi" ⟨5, 5, 6, 6⟩, mkAiPlaceholder ⟨5, 5, 6, 6⟩]
    ∧ (sendStart (initSuccessState 0 0) "hi" ⟨5, 5, 6, 6⟩).messages.length
        = (initSuccessState 0 0).messages.length + 2
    ∧ (mkUserMessage "hi" ⟨5, 5, 6, 6⟩).role = MessageRole.USER
    ∧ (mkUserMessage "hi" ⟨5, 5, 6, 6⟩).text = "hi"
    ∧ (mkAiPlaceholder ⟨5, 5, 6, 6⟩).role = MessageRole.AI
    ∧ (mkAiPlaceholder ⟨5, 5, 6, 6⟩).text = "" :=
  accepted_send_appends_two_records (initSuccessState 0 0) "hi" ⟨5, 5, 6, 6⟩
    (by decide)

/-- Claim C4: for every accepted send and every outcome of the
streaming exchange — normal completion, failure at open, or failure
after any number of fragments — the finally block leaves
`isLoading = false` and `activeAiMessageId = none`. -/
theorem send_cleanup_unconditional (s : AppState) (prompt : String)
    (c : ClockReads) (hacc : sendAccepted s prompt = true) :
    ∀ o : StreamOutcome,
      (handleSendMessage s prompt c o).isLoading = false
      ∧ (handleSendMessage s prompt c o).activeAiMessageId = none := by
  intro o
  cases o <;> simp [handleSendMessage, hacc, streamBody, sendFinish, afterStreamOpen]

/-- Witness for C4: concrete cleanup after a mid-stream failure. -/
theorem send_cleanup_unconditional_witness :
    (handleSendMessage (initSuccessState 0 0) "hi" ⟨1, 1, 1, 1⟩
        (StreamOutcome.midFail ["a"] (some "boom"))).isLoading = false
    ∧ (handleSendMessage (initSuccessState 0 0) "hi" ⟨1, 1, 1, 1⟩
        (StreamOutcome.midFail ["a"] (some "boom"))).activeAiMessageId = none :=
  send_cleanup_unconditional (initSuccessState 0 0) "hi" ⟨1, 1, 1, 1⟩ (by decide)
    (StreamOutcome.midFail ["a"] (some "boom"))

/-- Claim C2: for every accepted send and every fragment list, after
processing the first k fragments the assistant placeholder (the tail
record of the transcript) carries exactly the concatenation, in
arrival order, of the non-empty fragments among them; an empty
fragment is a no-op of the loop body; the text accumulated after k
fragments is a prefix of the final text; and the settled transcript's
tail record carries the full concatenation. -/
theorem assistant_text_concats_nonempty_fragments (s : AppState) (prompt : String)
    (c : ClockReads) (chunks : List String)
    (hacc : sendAccepted s prompt = true) :
    (∀ k : Nat,
      ((processChunks (newAiMessageId c) (sendStart s prompt c).messages
          (chunks.take k)).2).getLast?
        = some { mkAiPlaceholder c with text := concatNonEmpty (chunks.take k) })
    ∧ (∀ st : String × List ChatMessageData, chunkStep (newAiMessageId c) st "" = st)
    ∧ (∀ k : Nat, ∃ rest : String,
        concatNonEmpty chunks = concatNonEmpty (chunks.take k) ++ rest)
    ∧ ((handleSendMessage s prompt c (StreamOutcome.ok chunks)).messages).getLast?
        = some { mkAiPlaceholder c with text := concatNonEmpty chunks } := by
  have hsplit : s.messages ++ [mkUserMessage prompt c, mkAiPlaceholder c]
      = (s.messages ++ [mkUserMessage prompt c]) ++ [mkAiPlaceholder c] := by
    rw [List.append_assoc]
    rfl
  have hlastInit : (sendStart s prompt c).messages.getLast?
      = some { mkAiPlaceholder c with text := "" } := by
    show (s.messages ++ [mkUserMessage prompt c, mkAiPlaceholder c]).getLast? = _
    rw [hsplit, List.getLast?_concat]
    rfl
  have hk : ∀ ck : List String,
      ((processChunks (newAiMessageId c) (sendStart s prompt c).messages ck).2).getLast?
        = some { mkAiPlaceholder c with text := concatNonEmpty ck } := by
    intro ck
    have h := (foldl_chunkStep_getLast (newAiMessageId c) (mkAiPlaceholder c) rfl
        ck "" (sendStart s prompt c).messages hlastInit).2
    simpa [processChunks, String.empty_append] using h
  refine ⟨fun k => hk (chunks.take k), fun st => chunkStep_empty _ st, ?_, ?_⟩
  · intro k
    refine ⟨concatNonEmpty (chunks.drop k), ?_⟩
    conv_lhs => rw [← List.take_append_drop k chunks]
    rw [concatNonEmpty_append]
  · have hmsgs : (handleSendMessage s prompt c (StreamOutcome.ok chunks)).messages
        = (processChunks (newAiMessageId c) (sendStart s prompt c).messages chunks).2 := by
      simp [handleSendMessage, hacc, streamBody, sendFinish, afterStreamOpen]
    rw [hmsgs, hk chunks]

/-- Witness for C2: concrete placeholder text after two of three
fragments, the middle one empty. -/
theorem assistant_text_concats_nonempty_fragments_witness :
    ((processChunks (newAiMessageId ⟨5, 5, 6, 6⟩)
        (sendStart (initSuccessState 0 0) "hi" ⟨5, 5, 6, 6⟩).messages
        (["a", "", "b"].take 2)).2).getLast?
      = some { mkAiPlaceholder ⟨5, 5, 6, 6⟩ with
          text := concatNonEmpty (["a", "", "b"].take 2) } :=
  (assistant_text_concats_nonempty_fragments (initSuccessState 0 0) "hi"
      ⟨5, 5, 6, 6⟩ ["a", "", "b"] (by decide)).1 2

/-- Reachable collision state used to exhibit `Date.now()` id reuse:
start from a freshly initialized app whose clock reads 0 and run one
complete successful exchange with the clock still at 0.  The
transcript then holds the welcome record (id 0), a user record
(id 0) and an assistant record with id 1 and text "y". -/
def collideState : AppState :=
  handleSendMessage (initSuccessState 0 0) "a" ⟨0, 0, 0, 0⟩
    (StreamOutcome.ok ["y"])

/-- Claim C5, amended: provided the placeholder id of the send is
fresh — no record of the prior transcript carries it — and the clock
is nondecreasing, a stream failure after any fragments leaves the
assistant record's final text equal to the user-facing error string
(with fallback), keeps the user record and every prior record intact,
leaves the record count at exactly the two appended records, and does
not prevent a subsequent send (`isLoading` is false again and the
session handle is untouched); a failure at stream open behaves the
same way. -/
theorem send_error_containment_of_fresh_id (s : AppState) (prompt : String)
    (c : ClockReads)
    (hacc : sendAccepted s prompt = true)
    (hfresh : ∀ m ∈ s.messages, m.id ≠ newAiMessageId c)
    (hclk : c.tUserId ≤ c.tAiId)
    (chunks : List String) (emsg : Option String) :
    (handleSendMessage s prompt c (StreamOutcome.midFail chunks emsg)).messages
        = s.messages ++ [mkUserMessage prompt c,
            { mkAiPlaceholder c with text := errorMessageText emsg }]
    ∧ (handleSendMessage s prompt c (StreamOutcome.midFail chunks emsg)).messages.length
        = s.messages.length + 2
    ∧ (handleSendMessage s prompt c (StreamOutcome.midFail chunks emsg)).isLoading = false
    ∧ (handleSendMessage s prompt c (StreamOutcome.midFail chunks emsg)).chatSession
        = s.chatSession
    ∧ (handleSendMessage s prompt c (StreamOutcome.openFail emsg)).messages
        = s.messages ++ [mkUserMessage prompt c,
            { mkAiPlaceholder c with text := errorMessageText emsg }] := by
  have h1 := handleSendMessage_messages_of_fresh s prompt c
    (StreamOutcome.midFail chunks emsg) hacc hfresh hclk
  have h2 := handleSendMessage_messages_of_fresh s prompt c
    (StreamOutcome.openFail emsg) hacc hfresh hclk
  refine ⟨h1, ?_, ?_, ?_, h2⟩
  · rw [h1]
    simp
  · simp [handleSendMessage, hacc, sendFinish]
  · simp [handleSendMessage, hacc, sendFinish, streamBody, afterStreamOpen, sendStart]

/-- Witness for the amended C5 at a concrete ready state with an
advanced clock, two fragments and a described failure. -/
theorem send_error_containment_of_fresh_id_witness :
    (handleSendMessage (initSuccessState 0 0) "hi" ⟨5, 5, 6, 6⟩
        (StreamOutcome.midFail ["f1", "f2"] (some "timeout"))).messages
        = (initSuccessState 0 0).messages
            ++ [mkUserMessage "hi" ⟨5, 5, 6, 6⟩,
                { mkAiPlaceholder ⟨5, 5, 6, 6⟩ with
                    text := errorMessageText (some "timeout") }]
    ∧ (handleSendMessage (initSuccessState 0 0) "hi" ⟨5, 5, 6, 6⟩
        (StreamOutcome.midFail ["f1", "f2"] (some "timeout"))).messages.length
        = (initSuccessState 0 0).messages.length + 2
    ∧ (handleSendMessage (initSuccessState 0 0) "hi" ⟨5, 5, 6, 6⟩
        (StreamOutcome.midFail ["f1", "f2"] (some "timeout"))).isLoading = false
    ∧ (handleSendMessage (initSuccessState 0 0) "hi" ⟨5, 5, 6, 6⟩
        (StreamOutcome.midFail ["f1", "f2"] (some "timeout"))).chatSession
        = (initSuccessState 0 0).chatSession
    ∧ (handleSendMessage (initSuccessState 0 0) "hi" ⟨5, 5, 6, 6⟩
        (StreamOutcome.openFail (some "timeout"))).messages
        = (initSuccessState 0 0).messages
            ++ [mkUserMessage "hi" ⟨5, 5, 6, 6⟩,
                { mkAiPlaceholder ⟨5, 5, 6, 6⟩ with
                    text := errorMessageText (some "timeout") }] :=
  send_error_containment_of_fresh_id (initSuccessState 0 0) "hi" ⟨5, 5, 6, 6⟩
    (by decide) (by decide) (by decide) ["f1", "f2"] (some "timeout")

/-- Counterexample to C5 as stated: in the reachable state
`collideState` (clock stalled at 0), a further send reuses assistant
id 1, so the failure handler also rewrites the assistant record of the
previous exchange — a record other than the new user record and the
new placeholder is changed, contradicting the claim that all other
records are unchanged. -/
theorem send_error_clobbers_colliding_record :
    (collideState.messages[2]?).map (fun m => m.text) = some "y"
    ∧ (((handleSendMessage collideState "b" ⟨0, 0, 0, 0⟩
          (StreamOutcome.midFail [] none)).messages[2]?).map fun m => m.text)
        = some "Sorry, I encountered an error: Unknown API error" := by
  decide

/-- Claim C9, amended: provided the placeholder id of the send is
fresh and the clock is nondecreasing, every outcome of the exchange
leaves the prior records and the new user record byte-for-byte
unchanged and rewrites only the trailing placeholder, whose final text
is the outcome's final text. -/
theorem send_mutates_only_fresh_placeholder (s : AppState) (prompt : String)
    (c : ClockReads)
    (hacc : sendAccepted s prompt = true)
    (hfresh : ∀ m ∈ s.messages, m.id ≠ newAiMessageId c)
    (hclk : c.tUserId ≤ c.tAiId) :
    ∀ o : StreamOutcome,
      (handleSendMessage s prompt c o).messages
        = s.messages ++ [mkUserMessage prompt c,
            { mkAiPlaceholder c with text := finalAssistantText o }] :=
  fun o => handleSendMessage_messages_of_fresh s prompt c o hacc hfresh hclk

/-- Witness for the amended C9 at a concrete state, clock and
successful one-fragment stream. -/
theorem send_mutates_only_fresh_placeholder_witness :
    (handleSendMessage (initSuccessState 0 0) "hi" ⟨5, 5, 6, 6⟩
        (StreamOutcome.ok ["x"])).messages
      = (initSuccessState 0 0).messages
          ++ [mkUserMessage "hi" ⟨5, 5, 6, 6⟩,
              { mkAiPlaceholder ⟨5, 5, 6, 6⟩ with
                  text := finalAssistantText (StreamOutcome.ok ["x"]) }] :=
  send_mutates_only_fresh_placeholder (initSuccessState 0 0) "hi" ⟨5, 5, 6, 6⟩
    (by decide) (by decide) (by decide) (StreamOutcome.ok ["x"])

/-- Counterexample to C9 as stated: in the reachable state
`collideState`, a further send with the clock still at 0 reuses
assistant id 1, and the first streamed fragment rewrites the previous
exchange's assistant record (text "y" becomes "x") — a record that
existed before the send does not retain its text. -/
theorem send_mutates_preexisting_record_on_id_collision :
    collideState.messages.length = 3
    ∧ (collideState.messages[2]?).map (fun m => m.text) = some "y"
    ∧ (((handleSendMessage collideState "b" ⟨0, 0, 0, 0⟩
          (StreamOutcome.ok ["x"])).messages[2]?).map fun m => m.text)
        = some "x" := by
  decide

/-- Claim C6, amended: the streaming call of an accepted send is
opened with the prompt exactly as passed to `handleSendMessage`, not
re-trimmed there; the trimming happens one layer up, in `ChatInput`,
whose callback always delivers the trimmed input text, so the two
coincide for UI-originated sends. -/
theorem stream_opened_with_prompt_as_given (s : AppState) (prompt : String)
    (hacc : sendAccepted s prompt = true) :
    streamOpenMessage s prompt = some prompt
    ∧ (∀ (m : String) (ld : Bool) (q : String),
        chatInputSend m ld = some q → q = jsTrim m) := by
  constructor
  · simp [streamOpenMessage, hacc]
  · intro m ld q h
    unfold chatInputSend at h
    by_cases hc : jsTrim m ≠ "" ∧ !ld
    · rw [if_pos hc] at h
      exact (Option.some.inj h).symm
    · rw [if_neg hc] at h
      cases h

/-- Witness for the amended C6 at a concrete ready state. -/
theorem stream_opened_with_prompt_as_given_witness :
    streamOpenMessage (initSuccessState 0 0) "hi" = some "hi" :=
  (stream_opened_with_prompt_as_given (initSuccessState 0 0) "hi" (by decide)).1

/-- Counterexample to C6 as stated: the prompt with surrounding
whitespace is accepted (its trim is non-empty), yet the streaming call
is opened with the untrimmed prompt, not with its trim. -/
theorem stream_not_opened_with_trimmed_prompt :
    sendAccepted (initSuccessState 0 0) " hi " = true
    ∧ streamOpenMessage (initSuccessState 0 0) " hi " = some " hi "
    ∧ streamOpenMessage (initSuccessState 0 0) " hi " ≠ some (jsTrim " hi ") := by
  decide

/-- Claim C7, amended: within one accepted send the two generated ids
are distinct — under a nondecreasing clock the user id is strictly
below the assistant id — and the user record is appended (hence
displayed) before the assistant record; id uniqueness across the whole
transcript additionally requires the send's first clock reading to
exceed every id already present, in which case the transcript's id
list stays duplicate-free. -/
theorem send_ids_fresh_of_clock_ahead (s : AppState) (prompt : String)
    (c : ClockReads)
    (hacc : sendAccepted s prompt = true)
    (hclk : c.tUserId ≤ c.tAiId)
    (hahead : ∀ m ∈ s.messages, m.id < c.tUserId)
    (hnodup : ((s.messages.map fun m => m.id)).Nodup) :
    (mkUserMessage prompt c).id < (mkAiPlaceholder c).id
    ∧ (sendStart s prompt c).messages
        = s.messages ++ [mkUserMessage prompt c, mkAiPlaceholder c]
    ∧ (((sendStart s prompt c).messages.map fun m => m.id)).Nodup := by
  refine ⟨?_, rfl, ?_⟩
  · show c.tUserId < c.tAiId + 1
    omega
  · have hids : ((sendStart s prompt c).messages.map fun m => m.id)
        = (s.messages.map fun m => m.id) ++ [c.tUserId, c.tAiId + 1] := by
      simp [sendStart, mkUserMessage, mkAiPlaceholder, newAiMessageId]
    rw [hids]
    refine List.Nodup.append hnodup ?_ ?_
    · simp only [List.nodup_cons, List.mem_singleton, List.nodup_nil, and_true,
        List.not_mem_nil, not_false_eq_true]
      omega
    · intro a ha hb
      obtain ⟨m, hm, rfl⟩ := List.mem_map.mp ha
      have h1 := hahead m hm
      have h2 : m.id = c.tUserId ∨ m.id = c.tAiId + 1 := by simpa using hb
      omega

/-- Witness for the amended C7: with the clock ahead of the single
welcome id, a concrete send yields distinct fresh ids in order. -/
theorem send_ids_fresh_of_clock_ahead_witness :
    (mkUserMessage "hi" ⟨5, 5, 6, 6⟩).id < (mkAiPlaceholder ⟨5, 5, 6, 6⟩).id
    ∧ (sendStart (initSuccessState 0 0) "hi" ⟨5, 5, 6, 6⟩).messages
        = (initSuccessState 0 0).messages
            ++ [mkUserMessage "hi" ⟨5, 5, 6, 6⟩, mkAiPlaceholder ⟨5, 5, 6, 6⟩]
    ∧ (((sendStart (initSuccessState 0 0) "hi" ⟨5, 5, 6, 6⟩).messages.map
          fun m => m.id)).Nodup :=
  send_ids_fresh_of_clock_ahead (initSuccessState 0 0) "hi" ⟨5, 5, 6, 6⟩
    (by decide) (by decide) (by decide) (by decide)

/-- Counterexample to C7 as stated: starting from an app initialized
at clock 0, a send whose clock readings are still 0 produces id 0 for
the user record — the same id the welcome record already carries — so
the reachable transcript's ids are not unique. -/
theorem send_ids_collide_when_clock_stalls :
    ¬ (((handleSendMessage (initSuccessState 0 0) "hi" ⟨0, 0, 0, 0⟩
          (StreamOutcome.ok [])).messages.map fun m => m.id)).Nodup := by
  decide

/-- Claim C8: a `replaceText` whose target id is absent from the
transcript is the identity — no crash, no created record — and in
particular after `handleNewChat` reseeds the transcript with a single
fresh welcome record, a late update targeting the old active record id
leaves the one-record transcript exactly as it is. -/
theorem replaceText_absent_id_is_noop :
    (∀ (msgs : List ChatMessageData) (targetId : Nat) (txt : String),
        (∀ m ∈ msgs, m.id ≠ targetId) → replaceText targetId txt msgs = msgs)
    ∧ (∀ (s : AppState) (tId tTs oldId : Nat) (txt : String),
        tId ≠ oldId →
          replaceText oldId txt (handleNewChat s tId tTs).messages
              = (handleNewChat s tId tTs).messages
          ∧ (handleNewChat s tId tTs).messages.length = 1) := by
  refine ⟨fun msgs targetId txt h => replaceText_frame targetId txt msgs h, ?_⟩
  intro s tId tTs oldId txt hne
  refine ⟨?_, rfl⟩
  apply replaceText_frame
  intro m hm
  have hm2 : m = { id := tId, role := .AI, text := welcomeText, timestamp := tTs } := by
    simpa [handleNewChat] using hm
  rw [hm2]
  exact hne

/-- Witness for C8: a concrete absent id is dropped, both on a raw
transcript and right after a concrete `handleNewChat`. -/
theorem replaceText_absent_id_is_noop_witness :
    replaceText 7 "z"
        [({ id := 3, role := MessageRole.AI, text := "t", timestamp := 0 } : ChatMessageData)]
      = [{ id := 3, role := MessageRole.AI, text := "t", timestamp := 0 }]
    ∧ (replaceText 9 "late" (handleNewChat (initSuccessState 0 0) 4 4).messages
          = (handleNewChat (initSuccessState 0 0) 4 4).messages
        ∧ (handleNewChat (initSuccessState 0 0) 4 4).messages.length = 1) :=
  ⟨(replaceText_absent_id_is_noop).1
      [{ id := 3, role := MessageRole.AI, text := "t", timestamp := 0 }] 7 "z" (by decide),
    (replaceText_absent_id_is_noop).2 (initSuccessState 0 0) 4 4 9 "late" (by decide)⟩

/-- Claim C10: a rejected send leaves the standing error state
untouched; once the streaming call of an accepted send opens, the
error state is cleared before any fragment is processed (and a
normally completed exchange settles with no error), while a failed
stream open settles with the failure handler's error string in
place of the prior error. -/
theorem error_state_clearing_policy (s : AppState) (prompt : String)
    (c : ClockReads) :
    (sendAccepted s prompt = false →
      ∀ o : StreamOutcome, (handleSendMessage s prompt c o).error = s.error)
    ∧ (∀ x : AppState, (afterStreamOpen x).error = none)
    ∧ (sendAccepted s prompt = true →
      ∀ chunks : List String,
        (handleSendMessage s prompt c (StreamOutcome.ok chunks)).error = none)
    ∧ (sendAccepted s prompt = true →
      ∀ emsg : Option String,
        (handleSendMessage s prompt c (StreamOutcome.openFail emsg)).error
          = some (errorMessageText emsg)) := by
  refine ⟨?_, fun x => rfl, ?_, ?_⟩
  · intro h o
    simp [handleSendMessage, h]
  · intro h chunks
    simp [handleSendMessage, h, streamBody, sendFinish, afterStreamOpen]
  · intro h emsg
    simp [handleSendMessage, h, streamBody, sendFinish]

/-- Witness for C10: a stale banner is dismissed by a concrete
successful exchange, and a concrete failed open installs the error
string. -/
theorem error_state_clearing_policy_witness :
    (handleSendMessage { initSuccessState 0 0 with error := some "old" } "hi"
        ⟨1, 1, 1, 1⟩ (StreamOutcome.ok ["x"])).error = none
    ∧ (handleSendMessage (initSuccessState 0 0) "hi" ⟨1, 1, 1, 1⟩
        (StreamOutcome.openFail (some "boom"))).error
      = some (errorMessageText (some "boom")) :=
  ⟨(error_state_clearing_policy { initSuccessState 0 0 with error := some "old" }
      "hi" ⟨1, 1, 1, 1⟩).2.2.1 (by decide) ["x"],
    (error_state_clearing_policy (initSuccessState 0 0) "hi"
      ⟨1, 1, 1, 1⟩).2.2.2 (by decide) (some "boom")⟩
